import Mathlib

/-!
Verification development for the `deno-mcp` MCP server (`main.ts`, server
version 0.2.1). The development embeds the `CallToolRequestSchema` handler
(`main.ts`, the block registered with `server.setRequestHandler`): argument
extraction, the temporary-directory lifecycle, the subprocess invocation
`Deno.Command(Deno.execPath(), ...)`, the outcome classification on
`exitCode`/`stderr`, the `finally` cleanup, the outer `catch`, and the
`throw` for unrecognised tool names.

Operating-system calls (`Deno.makeTempDir`, `Deno.writeTextFile`,
`command.output()`) are modelled by an oracle (`OsBehavior`) saying whether
each call succeeds or throws, and the externally visible actions of a call
are collected in an effect trace.
-/

/-- A JSON-ish runtime value, enough to model the untyped `arguments` object
of a `callTool` request. `undef` models the JavaScript `undefined` obtained
when a property is absent. -/
inductive JsonValue where
  | str (s : String)
  | num (n : Int)
  | boolean (b : Bool)
  | null
  | undef
deriving DecidableEq

/-- The captured result of `command.output()`: exit code plus fully buffered
and decoded stdout/stderr, as destructured in `main.ts`
(`const { code: exitCode, stdout, stderr } = await command.output()`). -/
structure ExecutionOutcome where
  exitCode : Int
  stdout : String
  stderr : String
deriving DecidableEq

/-- One element of the `content` array of a tool result. In `main.ts` every
produced element has `type: "text"`. -/
structure ContentItem where
  type : String
  text : String
deriving DecidableEq

/-- A tool result as returned by the handler: a `content` array and an
optional `isError` field (`none` models the field being absent, as on the
success path of `main.ts`). -/
structure ToolResult where
  content : List ContentItem
  isError : Option Bool
deriving DecidableEq

/-- The text of a tool result (the `text` of its first content element;
every result built by `main.ts` has exactly one). -/
def resultText (r : ToolResult) : String :=
  (r.content.headD ⟨"text", ""⟩).text

/-! ### Substring containment, JavaScript `String.prototype.includes` -/

/-- Whether `p` is a leading run of `s` (character lists). -/
def startsWithL : List Char → List Char → Bool
  | [], _ => true
  | _ :: _, [] => false
  | p :: ps, c :: cs => p == c && startsWithL ps cs

/-- Whether `pat` occurs contiguously inside `s` (character lists). -/
def containsL (pat : List Char) : List Char → Bool
  | [] => pat.isEmpty
  | c :: cs => startsWithL pat (c :: cs) || containsL pat cs

/-- JavaScript `s.includes(pat)`: case-sensitive substring occurrence. -/
def strIncludes (s pat : String) : Bool :=
  containsL pat.data s.data

theorem startsWithL_append (p s t : List Char) (h : startsWithL p s = true) :
    startsWithL p (s ++ t) = true := by
  induction p generalizing s with
  | nil => simp [startsWithL]
  | cons a ps ih =>
    cases s with
    | nil => simp [startsWithL] at h
    | cons c cs =>
      simp only [startsWithL, Bool.and_eq_true] at h
      simp only [List.cons_append, startsWithL, Bool.and_eq_true]
      exact ⟨h.1, ih cs h.2⟩

theorem startsWithL_self_append (p t : List Char) :
    startsWithL p (p ++ t) = true := by
  induction p with
  | nil => simp [startsWithL]
  | cons a ps ih => simp [startsWithL, ih]

theorem containsL_of_startsWithL (p s : List Char) (h : startsWithL p s = true) :
    containsL p s = true := by
  cases s with
  | nil =>
    cases p with
    | nil => simp [containsL]
    | cons a ps => simp [startsWithL] at h
  | cons c cs => simp [containsL, h]

theorem containsL_append_right (p a b : List Char) (h : containsL p b = true) :
    containsL p (a ++ b) = true := by
  induction a with
  | nil => simpa using h
  | cons c cs ih => simp [containsL, ih]

theorem containsL_append_left (p a b : List Char) (h : containsL p a = true) :
    containsL p (a ++ b) = true := by
  induction a with
  | nil =>
    cases p with
    | nil => exact containsL_of_startsWithL _ _ (by simp [startsWithL])
    | cons x xs => simp [containsL, List.isEmpty] at h
  | cons c cs ih =>
    simp only [containsL, Bool.or_eq_true] at h
    rcases h with h | h
    · simp only [List.cons_append, containsL, Bool.or_eq_true]
      exact Or.inl (startsWithL_append _ _ _ h)
    · simp [containsL, ih h]

theorem strIncludes_append_left (a b pat : String) (h : strIncludes a pat = true) :
    strIncludes (a ++ b) pat = true := by
  unfold strIncludes at *
  rw [String.data_append]
  exact containsL_append_left _ _ _ h

theorem strIncludes_append_right (a b pat : String) (h : strIncludes b pat = true) :
    strIncludes (a ++ b) pat = true := by
  unfold strIncludes at *
  rw [String.data_append]
  exact containsL_append_right _ _ _ h

theorem strIncludes_self_append (pat t : String) :
    strIncludes (pat ++ t) pat = true := by
  unfold strIncludes
  rw [String.data_append]
  exact containsL_of_startsWithL _ _ (startsWithL_self_append _ _)

theorem strIncludes_refl (s : String) : strIncludes s s = true := by
  have h := strIncludes_self_append s ""
  simpa using h

/-! ### The Outcome Classifier of `main.ts` (the branch on `exitCode`) -/

/-- The guidance appended to permission-denied reports in `main.ts`. -/
def permissionGuidance : String :=
  "\n\nTo grant permissions, restart the MCP server with appropriate flags like --allow-net, --allow-read, or --allow-write"

/-- Classification of a completed subprocess, transcribed from `main.ts`:
`exitCode === 0` yields the stdout text (or a placeholder when stdout is
empty, via `stdoutText || ...`) with no `isError` field; otherwise stderr is
sniffed for `"PermissionDenied"` / `"permission denied"` and an error result
is built. -/
def classifyOutcome (o : ExecutionOutcome) : ToolResult :=
  if o.exitCode = 0 then
    { content := [⟨"text",
        if o.stdout = "" then "Code executed successfully (no output)" else o.stdout⟩],
      isError := none }
  else if strIncludes o.stderr "PermissionDenied" || strIncludes o.stderr "permission denied" then
    { content := [⟨"text",
        "Permission denied error:\n" ++ o.stderr ++ permissionGuidance⟩],
      isError := some true }
  else
    { content := [⟨"text",
        "Error (exit code " ++ toString o.exitCode ++ "):\n" ++ o.stderr⟩],
      isError := some true }

/-! ### The `callTool` handler of `main.ts` -/

/-- The params of a `callTool` request: the tool `name` and the untyped
`arguments` object, modelled as an association list of properties. -/
structure RequestParams where
  name : String
  arguments : List (String × JsonValue)

/-- JavaScript property access `arguments["code"]`; yields `undef` when the
property is absent. This models the unchecked destructuring cast
`const { code } = request.params.arguments as ...` of `main.ts`. -/
def getProp : List (String × JsonValue) → String → JsonValue
  | [], _ => .undef
  | (k, v) :: rest, key => if k = key then v else getProp rest key

/-- Externally visible operating-system actions a handler call performs. -/
inductive Effect where
  | makeTempDir (pfx : String)
  | writeTextFile (path : String) (data : JsonValue) (mode : Nat)
  | spawn (exe : String) (args : List String) (cwd : String)
  | removeDir (path : String) (recursive : Bool)
deriving DecidableEq

/-- How the handler call ends at the dispatcher boundary: a returned tool
result, or a thrown error escaping the handler (its message recorded). -/
inductive HandlerOutcome where
  | returned (r : ToolResult)
  | threw (msg : String)
deriving DecidableEq

/-- Oracle for the outcome of each operating-system call the handler makes:
`some msg` means the call throws an error with that message; `outcome` is
what `command.output()` reports when it completes. -/
structure OsBehavior where
  tempDirErr : Option String
  writeErr : Option String
  runErr : Option String
  outcome : ExecutionOutcome
deriving DecidableEq

/-- Models the fresh unique directory path produced by `Deno.makeTempDir`
with the `"deno-mcp-"` path start on the k-th call of the server process:
faithful to its contract up to freshness (a path never produced before and
never produced again), abstracting the randomly chosen suffix. -/
def tempDirPath (k : Nat) : String :=
  "/tmp/deno-mcp-" ++ String.mk (List.replicate k 'a')

/-- The argument list `["run", "--no-check", "--allow-all", scriptPath]`
passed to `Deno.Command` in `main.ts`. -/
def denoRunArgs (scriptPath : String) : List String :=
  ["run", "--no-check", "--allow-all", scriptPath]

/-- The result built by the outer `catch` block of `main.ts`. -/
def executionErrorResult (msg : String) : ToolResult :=
  { content := [⟨"text", "Execution error: " ++ msg⟩], isError := some true }

/-- The `CallToolRequestSchema` handler of `main.ts` (version 0.2.1),
transcribed step by step. `os` says how each operating-system call behaves,
`k` is the fresh-name counter backing `Deno.makeTempDir`, `exe` is the value
of `Deno.execPath()`. Returns how the handler ends together with the trace
of operating-system actions that actually took place. The `finally` block
removes the temporary directory on every path on which it was created; the
outer `catch` turns any thrown operating-system error into an
`Execution error:` result; a tool name other than `"execute_typescript"`
reaches the final `throw`. -/
def handleCallTool (os : OsBehavior) (k : Nat) (exe : String)
    (p : RequestParams) : HandlerOutcome × List Effect :=
  if p.name = "execute_typescript" then
    let code := getProp p.arguments "code"
    match os.tempDirErr with
    | some m => (.returned (executionErrorResult m), [])
    | none =>
      let tempDir := tempDirPath k
      let scriptPath := tempDir ++ "/script.ts"
      match os.writeErr with
      | some m =>
          (.returned (executionErrorResult m),
           [.makeTempDir "deno-mcp-", .removeDir tempDir true])
      | none =>
        match os.runErr with
        | some m =>
            (.returned (executionErrorResult m),
             [.makeTempDir "deno-mcp-", .writeTextFile scriptPath code 0o600,
              .removeDir tempDir true])
        | none =>
            (.returned (classifyOutcome os.outcome),
             [.makeTempDir "deno-mcp-", .writeTextFile scriptPath code 0o600,
              .spawn exe (denoRunArgs scriptPath) tempDir,
              .removeDir tempDir true])
  else
    (.threw ("Unknown tool: " ++ p.name), [])

/-- An oracle on which every operating-system call succeeds and the
subprocess reports outcome `o`. -/
def osAllOk (o : ExecutionOutcome) : OsBehavior :=
  { tempDirErr := none, writeErr := none, runErr := none, outcome := o }

/-- The apostrophe character, used when quoting expected message fragments. -/
def apos : String := String.mk [Char.ofNat 39]

/-- An oracle on which `Deno.writeTextFile` throws with message `m` while the
other operating-system calls would succeed. -/
def osWriteThrows (m : String) : OsBehavior :=
  { tempDirErr := none, writeErr := some m, runErr := none, outcome := ⟨0, "", ""⟩ }

/-- C1: the spawned child is NOT given merely the ambient privilege set of
the parent. Evaluating the handler at a concrete call shows the child
process is invoked with argument list
`["run", "--no-check", "--allow-all", script]`, which contains the explicit
capability flag `--allow-all` granting the child the full capability set
regardless of the parent's own privileges. -/
theorem C1_spawn_args_contain_allow_all :
    Effect.spawn "/usr/bin/deno"
        ["run", "--no-check", "--allow-all", "/tmp/deno-mcp-/script.ts"]
        "/tmp/deno-mcp-"
      ∈ (handleCallTool (osAllOk ⟨0, "", ""⟩) 0 "/usr/bin/deno"
          ⟨"execute_typescript", [("code", .str "console.log(1)")]⟩).2
    ∧ "--allow-all" ∈ denoRunArgs "/tmp/deno-mcp-/script.ts" := by decide

/-- C2: no string validation of the `code` argument exists in the handler.
With `code` bound to the number `12345` the handler still enters the
execution path (the temporary directory is created, and on an oracle where
every operating-system call succeeds a subprocess is spawned); when the
write of the non-string value throws, the surfaced message is the generic
`Execution error:` one and never contains the validation text
`'code' argument must be a string.` required by the claim and by
`main_test.ts`. -/
theorem C2_no_code_type_validation :
    (handleCallTool (osWriteThrows "The data is not a string") 0 "/usr/bin/deno"
        ⟨"execute_typescript", [("code", .num 12345)]⟩).1
      = .returned (executionErrorResult "The data is not a string")
    ∧ strIncludes (resultText (executionErrorResult "The data is not a string"))
        (apos ++ "code" ++ apos ++ " argument must be a string.") = false
    ∧ Effect.makeTempDir "deno-mcp-"
        ∈ (handleCallTool (osWriteThrows "The data is not a string") 0 "/usr/bin/deno"
            ⟨"execute_typescript", [("code", .num 12345)]⟩).2
    ∧ Effect.spawn "/usr/bin/deno" (denoRunArgs "/tmp/deno-mcp-/script.ts") "/tmp/deno-mcp-"
        ∈ (handleCallTool (osAllOk ⟨0, "", ""⟩) 0 "/usr/bin/deno"
            ⟨"execute_typescript", [("code", .num 12345)]⟩).2 := by decide

/-- C3: not every error kind is translated into an `isError` tool result:
for a tool name other than `execute_typescript` the handler ends in a thrown
error (the final `throw` of `main.ts`), which escapes the handler as an
uncaught fault instead of being returned as a result. -/
theorem C3_unknown_tool_escapes_as_throw :
    (handleCallTool (osAllOk ⟨0, "", ""⟩) 0 "/usr/bin/deno" ⟨"bad_tool", []⟩).1
      = .threw "Unknown tool: bad_tool" := by decide

/-- C4: the unknown-tool message produced by `main.ts` is
`Unknown tool: <name>`: it does not quote the name in the
`Unknown tool '<name>'` form required by the claim and by `main_test.ts`,
and it does not mention `execute_typescript` as the available tool. -/
theorem C4_unknown_tool_message_shape :
    (handleCallTool (osAllOk ⟨0, "", ""⟩) 0 "/usr/bin/deno"
        ⟨"non_existent_tool", []⟩).1
      = .threw "Unknown tool: non_existent_tool"
    ∧ strIncludes "Unknown tool: non_existent_tool"
        ("Unknown tool " ++ apos ++ "non_existent_tool" ++ apos) = false
    ∧ strIncludes "Unknown tool: non_existent_tool" "execute_typescript" = false := by decide

/-- C5: classification of a nonzero exit. If stderr carries one of the two
case-sensitive permission markers, the result is an error whose text carries
the `Permission denied error:` lead, the full stderr, and the restart
guidance; otherwise it is an error whose text carries the
`Error (exit code N):` lead followed by the full stderr. -/
theorem C5_nonzero_exit_classification (o : ExecutionOutcome) (h : o.exitCode ≠ 0) :
    (classifyOutcome o).isError = some true
    ∧ ((strIncludes o.stderr "PermissionDenied"
          || strIncludes o.stderr "permission denied") = true →
        strIncludes (resultText (classifyOutcome o)) "Permission denied error:" = true
        ∧ strIncludes (resultText (classifyOutcome o)) o.stderr = true
        ∧ strIncludes (resultText (classifyOutcome o))
            "To grant permissions, restart the MCP server with appropriate flags" = true)
    ∧ ((strIncludes o.stderr "PermissionDenied"
          || strIncludes o.stderr "permission denied") = false →
        strIncludes (resultText (classifyOutcome o))
          ("Error (exit code " ++ toString o.exitCode ++ "):") = true
        ∧ strIncludes (resultText (classifyOutcome o)) o.stderr = true) := by
  by_cases hm : (strIncludes o.stderr "PermissionDenied"
      || strIncludes o.stderr "permission denied") = true
  · refine ⟨?_, fun _ => ⟨?_, ?_, ?_⟩, fun hc => absurd hm (by simp [hc])⟩
    · simp [classifyOutcome, h, hm]
    · simp only [classifyOutcome, if_neg h, if_pos hm, resultText, List.headD]
      exact strIncludes_append_left _ _ _
        (strIncludes_append_left _ _ _ (by decide))
    · simp only [classifyOutcome, if_neg h, if_pos hm, resultText, List.headD]
      exact strIncludes_append_left _ _ _
        (strIncludes_append_right _ _ _ (strIncludes_refl _))
    · simp only [classifyOutcome, if_neg h, if_pos hm, resultText, List.headD]
      exact strIncludes_append_right _ _ _ (by decide)
  · refine ⟨?_, fun hc => absurd hc hm, fun _ => ⟨?_, ?_⟩⟩
    · simp [classifyOutcome, h, hm]
    · simp only [classifyOutcome, if_neg h, if_neg hm, resultText, List.headD]
      have hsplit :
          "Error (exit code " ++ toString o.exitCode ++ "):\n" ++ o.stderr
            = ("Error (exit code " ++ toString o.exitCode ++ "):") ++ "\n" ++ o.stderr := by
        rw [String.append_assoc ("Error (exit code " ++ toString o.exitCode) "):" "\n"]
        congr 1
      rw [hsplit, String.append_assoc]
      exact strIncludes_self_append _ _
    · simp only [classifyOutcome, if_neg h, if_neg hm, resultText, List.headD]
      exact strIncludes_append_right _ _ _ (strIncludes_refl _)

/-- C5 witness: the theorem instantiated at a concrete permission-denied
outcome. -/
theorem C5_nonzero_exit_classification_witness :
    (classifyOutcome ⟨1, "", "x PermissionDenied y"⟩).isError = some true
    ∧ ((strIncludes (ExecutionOutcome.stderr ⟨1, "", "x PermissionDenied y"⟩) "PermissionDenied"
          || strIncludes (ExecutionOutcome.stderr ⟨1, "", "x PermissionDenied y"⟩) "permission denied") = true →
        strIncludes (resultText (classifyOutcome ⟨1, "", "x PermissionDenied y"⟩)) "Permission denied error:" = true
        ∧ strIncludes (resultText (classifyOutcome ⟨1, "", "x PermissionDenied y"⟩))
            (ExecutionOutcome.stderr ⟨1, "", "x PermissionDenied y"⟩) = true
        ∧ strIncludes (resultText (classifyOutcome ⟨1, "", "x PermissionDenied y"⟩))
            "To grant permissions, restart the MCP server with appropriate flags" = true)
    ∧ ((strIncludes (ExecutionOutcome.stderr ⟨1, "", "x PermissionDenied y"⟩) "PermissionDenied"
          || strIncludes (ExecutionOutcome.stderr ⟨1, "", "x PermissionDenied y"⟩) "permission denied") = false →
        strIncludes (resultText (classifyOutcome ⟨1, "", "x PermissionDenied y"⟩))
          ("Error (exit code " ++ toString (ExecutionOutcome.exitCode ⟨1, "", "x PermissionDenied y"⟩) ++ "):") = true
        ∧ strIncludes (resultText (classifyOutcome ⟨1, "", "x PermissionDenied y"⟩))
            (ExecutionOutcome.stderr ⟨1, "", "x PermissionDenied y"⟩) = true) :=
  C5_nonzero_exit_classification ⟨1, "", "x PermissionDenied y"⟩ (by decide)

/-- C6: classification of a zero exit. The `isError` field is absent, the
text is the stdout when non-empty and the fixed placeholder when empty, and
the result does not depend on stderr (any outcome with the same exit code
and stdout classifies identically). -/
theorem C6_success_classification (o o2 : ExecutionOutcome) (h : o.exitCode = 0)
    (h2 : o2.exitCode = o.exitCode) (h3 : o2.stdout = o.stdout) :
    (classifyOutcome o).isError = none
    ∧ (o.stdout ≠ "" → resultText (classifyOutcome o) = o.stdout)
    ∧ (o.stdout = "" →
        resultText (classifyOutcome o) = "Code executed successfully (no output)")
    ∧ classifyOutcome o2 = classifyOutcome o := by
  refine ⟨by simp [classifyOutcome, h], fun hne => ?_, fun he => ?_, ?_⟩
  · simp [classifyOutcome, h, resultText, hne]
  · simp [classifyOutcome, h, resultText, he]
  · simp [classifyOutcome, h, h2, h3]

/-- C6 witness: the theorem instantiated at concrete outcomes sharing exit
code and stdout but differing in stderr. -/
theorem C6_success_classification_witness :
    (classifyOutcome ⟨0, "hi", "junk"⟩).isError = none
    ∧ (ExecutionOutcome.stdout ⟨0, "hi", "junk"⟩ ≠ "" →
        resultText (classifyOutcome ⟨0, "hi", "junk"⟩)
          = ExecutionOutcome.stdout ⟨0, "hi", "junk"⟩)
    ∧ (ExecutionOutcome.stdout ⟨0, "hi", "junk"⟩ = "" →
        resultText (classifyOutcome ⟨0, "hi", "junk"⟩)
          = "Code executed successfully (no output)")
    ∧ classifyOutcome ⟨0, "hi", "other"⟩ = classifyOutcome ⟨0, "hi", "junk"⟩ :=
  C6_success_classification ⟨0, "hi", "junk"⟩ ⟨0, "hi", "other"⟩ rfl rfl rfl

/-- C7: when obtaining the temporary directory throws, or the subprocess
spawn (`command.output()`) throws, the handler returns the
`Execution error:` result carrying the raw message; since it returns, the
error does not escape as a thrown fault. -/
theorem C7_setup_errors_caught (os : OsBehavior) (k : Nat) (exe : String)
    (args : List (String × JsonValue)) (m : String)
    (h : os.tempDirErr = some m
        ∨ (os.tempDirErr = none ∧ os.writeErr = none ∧ os.runErr = some m)) :
    (handleCallTool os k exe ⟨"execute_typescript", args⟩).1
      = .returned ⟨[⟨"text", "Execution error: " ++ m⟩], some true⟩ := by
  obtain ⟨td, we, re, oc⟩ := os
  rcases h with h | ⟨h1, h2, h3⟩
  · simp only at h
    subst h
    simp [handleCallTool, executionErrorResult]
  · simp only at h1 h2 h3
    subst h1; subst h2; subst h3
    simp [handleCallTool, executionErrorResult]

/-- C7 witness: the theorem instantiated at an oracle on which creating the
temporary directory throws. -/
theorem C7_setup_errors_caught_witness :
    (handleCallTool ⟨some "boom", none, none, ⟨0, "", ""⟩⟩ 0 "/usr/bin/deno"
        ⟨"execute_typescript", []⟩).1
      = .returned ⟨[⟨"text", "Execution error: boom"⟩], some true⟩ :=
  C7_setup_errors_caught ⟨some "boom", none, none, ⟨0, "", ""⟩⟩ 0 "/usr/bin/deno" []
    "boom" (Or.inl rfl)

/-- C8: once the temporary directory of a call exists, its removal is in the
effect trace of every exit path (success, failed-process classification, or
a thrown error while writing or spawning), and the directories of two
distinct calls are distinct. -/
theorem C8_scratch_removed_and_unique (os : OsBehavior) (k k2 : Nat) (exe : String)
    (args : List (String × JsonValue)) (h : os.tempDirErr = none) (hk : k ≠ k2) :
    Effect.removeDir (tempDirPath k) true
        ∈ (handleCallTool os k exe ⟨"execute_typescript", args⟩).2
    ∧ tempDirPath k ≠ tempDirPath k2 := by
  constructor
  · obtain ⟨td, we, re, oc⟩ := os
    simp only at h
    subst h
    cases we <;> cases re <;> simp [handleCallTool]
  · intro he
    apply hk
    have hd := congrArg String.data he
    simp only [tempDirPath, String.data_append] at hd
    have hrep := List.append_cancel_left hd
    have hlen := congrArg List.length hrep
    simpa using hlen

/-- C8 witness: the theorem instantiated at an all-succeeding oracle and the
first two fresh-name counters. -/
theorem C8_scratch_removed_and_unique_witness :
    Effect.removeDir (tempDirPath 0) true
        ∈ (handleCallTool (osAllOk ⟨0, "", ""⟩) 0 "/usr/bin/deno"
            ⟨"execute_typescript", []⟩).2
    ∧ tempDirPath 0 ≠ tempDirPath 1 :=
  C8_scratch_removed_and_unique (osAllOk ⟨0, "", ""⟩) 0 1 "/usr/bin/deno" [] rfl
    (by decide)

/-- C9: the classifier is a pure function, so equal execution outcomes give
results equal in `isError` and text; moreover the returned part of the
handler does not depend on the fresh-name counter, so repeated identical
calls whose subprocesses produce identical outcomes return identical
results. -/
theorem C9_classifier_deterministic (o1 o2 : ExecutionOutcome) (h : o1 = o2)
    (os : OsBehavior) (k k2 : Nat) (exe : String) (p : RequestParams) :
    (classifyOutcome o1).isError = (classifyOutcome o2).isError
    ∧ resultText (classifyOutcome o1) = resultText (classifyOutcome o2)
    ∧ (handleCallTool os k exe p).1 = (handleCallTool os k2 exe p).1 := by
  subst h
  refine ⟨rfl, rfl, ?_⟩
  obtain ⟨td, we, re, oc⟩ := os
  by_cases hp : p.name = "execute_typescript"
  · cases td <;> cases we <;> cases re <;> simp [handleCallTool, hp]
  · simp [handleCallTool, hp]

/-- C9 witness: the theorem instantiated at one concrete outcome and two
distinct fresh-name counters. -/
theorem C9_classifier_deterministic_witness :
    (classifyOutcome ⟨1, "", "oops"⟩).isError = (classifyOutcome ⟨1, "", "oops"⟩).isError
    ∧ resultText (classifyOutcome ⟨1, "", "oops"⟩)
        = resultText (classifyOutcome ⟨1, "", "oops"⟩)
    ∧ (handleCallTool (osAllOk ⟨1, "", "oops"⟩) 0 "/usr/bin/deno"
          ⟨"execute_typescript", [("code", .str "x")]⟩).1
        = (handleCallTool (osAllOk ⟨1, "", "oops"⟩) 5 "/usr/bin/deno"
            ⟨"execute_typescript", [("code", .str "x")]⟩).1 :=
  C9_classifier_deterministic ⟨1, "", "oops"⟩ ⟨1, "", "oops"⟩ rfl
    (osAllOk ⟨1, "", "oops"⟩) 0 5 "/usr/bin/deno"
    ⟨"execute_typescript", [("code", .str "x")]⟩

/-- C10: every spawn in a handler trace runs with its working directory set
to the call's temporary directory, and that directory's removal is also in
the trace, so relative paths of the submitted code resolve inside the
per-call scratch area that is removed when the call ends. -/
theorem C10_spawn_cwd_is_scratch_dir (os : OsBehavior) (k : Nat) (exe : String)
    (p : RequestParams) (e : String) (a : List String) (c : String)
    (h : Effect.spawn e a c ∈ (handleCallTool os k exe p).2) :
    c = tempDirPath k
    ∧ Effect.removeDir c true ∈ (handleCallTool os k exe p).2 := by
  obtain ⟨td, we, re, oc⟩ := os
  by_cases hp : p.name = "execute_typescript"
  · cases td with
    | some m => simp [handleCallTool, hp] at h
    | none =>
      cases we with
      | some m => simp [handleCallTool, hp] at h
      | none =>
        cases re with
        | some m => simp [handleCallTool, hp] at h
        | none =>
          simp only [handleCallTool, hp, if_pos, List.mem_cons,
            List.not_mem_nil, or_false] at h
          rcases h with h | h | h | h
          · exact absurd h (by simp)
          · exact absurd h (by simp)
          · rw [Effect.spawn.injEq] at h
            obtain ⟨he, ha, hc⟩ := h
            subst hc
            exact ⟨rfl, by simp [handleCallTool, hp]⟩
          · exact absurd h (by simp)
  · simp [handleCallTool, hp] at h

/-- C10 witness: the theorem instantiated at an all-succeeding oracle where
the trace contains the spawn of the script with the scratch directory as
working directory. -/
theorem C10_spawn_cwd_is_scratch_dir_witness :
    "/tmp/deno-mcp-" = tempDirPath 0
    ∧ Effect.removeDir "/tmp/deno-mcp-" true
        ∈ (handleCallTool (osAllOk ⟨0, "", ""⟩) 0 "/usr/bin/deno"
            ⟨"execute_typescript", [("code", .str "x")]⟩).2 :=
  C10_spawn_cwd_is_scratch_dir (osAllOk ⟨0, "", ""⟩) 0 "/usr/bin/deno"
    ⟨"execute_typescript", [("code", .str "x")]⟩
    "/usr/bin/deno" (denoRunArgs "/tmp/deno-mcp-/script.ts") "/tmp/deno-mcp-"
    (by decide)
